import Mathlib

/-!
Verification of the signal-to-event exercise-tracking engine of the Swap repository.

Each definition below is a shallow embedding of a concrete piece of the Python
source, translated statement by statement:

  * geometry (`calculate_angle`)           — `src/exercises/seated_marching_tracker26.py`
                                             lines 7-15 and the identical
                                             `ImprovedSquatTracker.calculate_angle`,
                                             `src/exercises/improved_squat_tracker.py` lines 33-56;
  * moving-average smoother (`smooth_angle`) — `improved_squat_tracker.py` lines 58-67;
  * squat stage machine (`squat_step`)       — `improved_squat_tracker.py` lines 106-122;
  * full squat analysis (`analyze_squat_form`) — `improved_squat_tracker.py` lines 69-191;
  * backend analysis (`analyze_squat_form_accurate`) — `src/backend/main.py` lines 632-737;
  * backend frame assembly (`processFrameResult`)    — `src/backend/main.py` lines 470-515;
  * seated-marching machine (`track_marching_core`)  — `seated_marching_tracker26.py` lines 29-83;
  * breathing machine (`breathing_step`)     — `src/exercises/breathing_exercise.py` lines 34-92;
  * alternate-nostril machine (`track_breathing_cycle`) — `src/exercises/alternate_nostril_breathing.py`
                                             lines 43-65.

Modelling conventions: Python floats are modelled by exact rationals (`ℚ`)
wherever the source only adds, subtracts, multiplies, divides and compares,
and by real numbers (`ℝ`) where the source calls `sqrt`/`arccos`.  The IEEE
NaN produced by numpy's `0.0/0.0` is modelled explicitly where it matters
(`calculate_angle_ieee` returns `none` exactly when the float computation
produces NaN); elsewhere Lean's `x / 0 = 0` convention stands in for values
that the claims under study never depend on.  Wall-clock times (`time.time()`)
are modelled as rational-valued call parameters, ingested in increasing order
as the spec's ordering guarantee demands.
-/

/-! ## Geometry

`calculate_angle(a, b, c)` from `seated_marching_tracker26.py` lines 7-15:
`ba = a - b`, `bc = c - b`, `cosine = dot(ba,bc)/(norm(ba)*norm(bc))`,
`angle = degrees(arccos(clip(cosine, -1, 1)))`.  The identical computation
appears in `ImprovedSquatTracker.calculate_angle` (lines 33-56), there wrapped
in `try/except` with `return 180.0` in the handler. -/

/-- Planar dot product of two vectors given as coordinate pairs. -/
def dotP (u v : ℝ × ℝ) : ℝ := u.1 * v.1 + u.2 * v.2

/-- `np.linalg.norm`: Euclidean norm of a coordinate pair. -/
noncomputable def normP (u : ℝ × ℝ) : ℝ := Real.sqrt (dotP u u)

/-- The vector from `b` to `a`, i.e. `a - b` coordinatewise. -/
def vsub2 (a b : ℝ × ℝ) : ℝ × ℝ := (a.1 - b.1, a.2 - b.2)

/-- `calculate_angle` with exact real arithmetic (Lean's `x / 0 = 0` stands in
for the degenerate case; `calculate_angle_ieee` below tracks the float NaN). -/
noncomputable def calculate_angle (a b c : ℝ × ℝ) : ℝ :=
  let ba := vsub2 a b
  let bc := vsub2 c b
  let cosine_angle := dotP ba bc / (normP ba * normP bc)
  let clipped := max (-1) (min 1 cosine_angle)
  Real.arccos clipped * (180 / Real.pi)

/-- `calculate_angle` as the float code actually behaves: when either vector has
zero length, `np.dot/(norm*norm)` is the float division `0.0/0.0`, which numpy
evaluates to NaN with a `RuntimeWarning` (no exception is raised, so the
`except: return 180.0` handler of `ImprovedSquatTracker.calculate_angle` never
runs), and NaN then propagates through `clip`, `arccos` and `degrees` to the
caller.  `none` models that NaN result. -/
noncomputable def calculate_angle_ieee (a b c : ℝ × ℝ) : Option ℝ :=
  if normP (vsub2 a b) * normP (vsub2 c b) = 0 then none
  else some (calculate_angle a b c)

/-! ## Landmarks and result records -/

/-- One pose landmark / keypoint: `PoseKeypoint` of `src/backend/main.py` and a
MediaPipe landmark of the tracker scripts (`x`, `y`, `z` coordinates plus a
visibility in `[0,1]` and a schema name). -/
structure Landmark where
  x : ℚ
  y : ℚ
  z : ℚ
  visibility : ℚ
  name : String
deriving Repr, DecidableEq

instance : Inhabited Landmark := ⟨⟨0, 0, 0, 0, ""⟩⟩

/-- The 4-tuple `(formScore, warnings, stage, currentRep)` returned by
`analyze_squat_form_accurate` in `src/backend/main.py`. -/
structure FormResult where
  formScore : ℚ
  warnings : List String
  stage : String
  currentRep : ℕ
deriving Repr, DecidableEq

/-- `PoseData` of `src/backend/main.py` (field order as constructed at
lines 508-515). -/
structure PoseData where
  keypoints : List Landmark
  confidence : ℚ
  formScore : ℚ
  currentRep : ℕ
  stage : String
  warnings : List String
deriving Repr, DecidableEq

/-! ## Signal smoother

`ImprovedSquatTracker.smooth_angle`, `improved_squat_tracker.py` lines 58-67:
append the sample, `pop(0)` once if the buffer exceeds `history_size`, return
`sum(history)/len(history)`.  Polymorphic over the scalar field so that the
same translation serves the tracker (reals) and concrete evaluation
(rationals). -/

/-- `self.history_size = 5` (line 27). -/
def history_size : ℕ := 5

/-- One `smooth_angle` call: returns the new buffer and the smoothed value. -/
def smooth_angle {α : Type} [LinearOrderedField α]
    (angle_history : List α) (angle : α) : List α × α :=
  let h1 := angle_history ++ [angle]
  let h2 := if history_size < h1.length then h1.tail else h1
  (h2, h2.sum / (h2.length : α))

/-- Feeding a whole sample stream through `smooth_angle` starting from the
empty buffer of a fresh session; returns the final buffer and the last
smoothed value (the second component is `0` for an empty stream). -/
def smoothRun {α : Type} [LinearOrderedField α] (xs : List α) : List α × α :=
  xs.foldl (fun acc v => smooth_angle acc.1 v) ([], 0)

/-! ## Squat stage machine

`ImprovedSquatTracker.analyze_squat_form`, lines 106-122: the block that sets
`previous_stage`, classifies the smoothed angle against the two thresholds and
counts repetitions.  The mutable fields it touches form `SquatCore`. -/

/-- `self.UP_THRESHOLD = 160` — "Angle to consider up position". -/
def UP_THRESHOLD {α : Type} [LinearOrderedField α] : α := 160

/-- `self.DEPTH_THRESHOLD = 90` — "Minimum angle for good depth". -/
def DEPTH_THRESHOLD {α : Type} [LinearOrderedField α] : α := 90

/-- `self.EXCELLENT_DEPTH = 70` — "Angle for excellent depth". -/
def EXCELLENT_DEPTH {α : Type} [LinearOrderedField α] : α := 70

/-- The rep-counting state of `ImprovedSquatTracker`: `self.counter`,
`self.stage`, `self.previous_stage`, `self.rep_in_progress`. -/
structure SquatCore where
  counter : ℕ
  stage : String
  previous_stage : String
  rep_in_progress : Bool
deriving Repr, DecidableEq

/-- Lines 106-122 of `improved_squat_tracker.py`, as a function of the current
core state and the freshly smoothed angle.  Returns the new core state and the
warnings appended inside this block (the "Rep N completed" message). -/
def squat_step {α : Type} [LinearOrderedField α]
    (s : SquatCore) (smoothed_angle : α) : SquatCore × List String :=
  -- self.previous_stage = self.stage
  let prev := s.stage
  if UP_THRESHOLD < smoothed_angle then
    if s.rep_in_progress = true ∧ prev = "down" then
      (⟨s.counter + 1, "up", prev, false⟩,
        ["Rep " ++ toString (s.counter + 1) ++ " completed! 🎉"])
    else
      (⟨s.counter, "up", prev, s.rep_in_progress⟩, [])
  else if smoothed_angle < DEPTH_THRESHOLD then
    -- `if not self.rep_in_progress: self.rep_in_progress = True` always
    -- leaves the flag set
    (⟨s.counter, "down", prev, true⟩, [])
  else
    (⟨s.counter, "transition", prev, s.rep_in_progress⟩, [])

/-- The qualifying rep-completing transition of lines 108-114: the smoothed
angle crosses the up threshold while a rep is in progress and the previous
stage was "down". -/
def squat_qualifies {α : Type} [LinearOrderedField α]
    (s : SquatCore) (smoothed_angle : α) : Prop :=
  UP_THRESHOLD < smoothed_angle ∧ s.rep_in_progress = true ∧ s.stage = "down"

instance {α : Type} [LinearOrderedField α] (s : SquatCore) (v : α) :
    Decidable (squat_qualifies s v) := by
  unfold squat_qualifies; infer_instance

/-- Driving the squat stage machine with a sequence of smoothed-angle values. -/
def squat_run {α : Type} [LinearOrderedField α]
    (s : SquatCore) (vs : List α) : SquatCore :=
  vs.foldl (fun st v => (squat_step st v).1) s

/-! ## Score clamping and headline banding

Lines 178-189 of `improved_squat_tracker.py` and lines 724-735 of
`src/backend/main.py` contain this identical final block: clamp the running
score with `max(0, min(100, score))`, then `insert(0, ...)` the headline
message chosen by fixed score bands. -/

/-- The shared clamp-and-band epilogue.  Returns the clamped score and the
warning list with the headline prepended. -/
def finalizeScore {α : Type} [LinearOrderedField α]
    (form_score : α) (warnings : List String) : α × List String :=
  let s := max 0 (min 100 form_score)
  if 90 ≤ s then (s, "Perfect form! 🔥" :: warnings)
  else if 80 ≤ s then (s, "Great form! 💪" :: warnings)
  else if 70 ≤ s then (s, "Good form, minor adjustments needed" :: warnings)
  else (s, "Focus on form improvements" :: warnings)

/-! ## Full squat analysis (`ImprovedSquatTracker.analyze_squat_form`) -/

/-- The whole mutable state of an `ImprovedSquatTracker` session that
`analyze_squat_form` reads or writes across calls (`self.form_score` and
`self.warnings` are reset at the top of every call, lines 102-103, so they are
locals of the embedding; `self.max_depth_reached` is never read or written by
`analyze_squat_form` and is omitted). -/
structure SquatSession where
  core : SquatCore
  angle_history : List ℝ
  min_angle_reached : ℝ

/-- The value returned by one `analyze_squat_form` call together with the
updated session state: Python mutates `self` and returns the 4-tuple
`(form_score, warnings, stage, rep_count)`. -/
structure SquatReturn where
  session : SquatSession
  form_score : ℝ
  warnings : List String
  stage : String
  counter : ℕ

/-- Pixel coordinates of landmark `l`: Python computes
`[landmarks[i].x * frame_shape[1], landmarks[i].y * frame_shape[0]]`
(`frame_shape = (height, width)`). -/
def px (l : Landmark) (frame_shape : ℚ × ℚ) : ℝ × ℝ :=
  (((l.x * frame_shape.2 : ℚ) : ℝ), ((l.y * frame_shape.1 : ℚ) : ℝ))

/-- `ImprovedSquatTracker.analyze_squat_form` (lines 69-191), translated
statement by statement.  On fewer than 33 landmarks it returns the fixed
no-detection result without touching the session state (lines 75-76);
otherwise it computes the leg and torso angles, smooths the averaged leg
angle, runs the stage machine, evaluates the five form rules in order and
finishes with the clamp-and-band epilogue. -/
noncomputable def analyze_squat_form
    (s : SquatSession) (landmarks : List Landmark) (frame_shape : ℚ × ℚ) :
    SquatReturn :=
  if landmarks.length < 33 then
    ⟨s, 0, ["No pose detected - ensure full body is visible"], "up", 0⟩
  else
    let lm := fun i => landmarks.getD i default
    let left_shoulder := px (lm 11) frame_shape
    let right_shoulder := px (lm 12) frame_shape
    let left_hip := px (lm 23) frame_shape
    let right_hip := px (lm 24) frame_shape
    let left_knee := px (lm 25) frame_shape
    let right_knee := px (lm 26) frame_shape
    let left_ankle := px (lm 27) frame_shape
    let right_ankle := px (lm 28) frame_shape
    -- primary angles (hip-knee-ankle for squat depth)
    let left_leg_angle := calculate_angle left_hip left_knee left_ankle
    let right_leg_angle := calculate_angle right_hip right_knee right_ankle
    let avg_leg_angle := (left_leg_angle + right_leg_angle) / 2
    let smoothed := smooth_angle s.angle_history avg_leg_angle
    let angle_history := smoothed.1
    let smoothed_angle := smoothed.2
    -- torso angle (shoulder-hip-knee for posture)
    let left_torso_angle := calculate_angle left_shoulder left_hip left_knee
    let right_torso_angle := calculate_angle right_shoulder right_hip right_knee
    let avg_torso_angle := (left_torso_angle + right_torso_angle) / 2
    -- reset form analysis: form_score = 100, warnings = []
    -- determine squat stage and count reps (lines 106-122)
    let stepped := squat_step s.core smoothed_angle
    let core := stepped.1
    let rep_warnings := stepped.2
    -- track depth metrics
    let min_angle_reached :=
      if smoothed_angle < s.min_angle_reached then smoothed_angle
      else s.min_angle_reached
    -- 1. depth analysis
    let depth :=
      if smoothed_angle ≤ EXCELLENT_DEPTH then
        ((5 : ℝ), ["Excellent depth! 🎯"])
      else if smoothed_angle ≤ DEPTH_THRESHOLD then
        (0, ["Good depth! 👍"])
      else if core.stage = "down" then
        (-20, ["Go deeper - aim for 90° knee angle"])
      else (0, [])
    -- 2. symmetry analysis
    let leg_angle_diff := |left_leg_angle - right_leg_angle|
    let symmetry :=
      if 15 < leg_angle_diff then ((-10 : ℝ), ["Keep both legs symmetric"])
      else (0, ["Good leg symmetry! 👌"])
    -- 3. posture analysis
    let posture :=
      if avg_torso_angle < 160 then
        ((-15 : ℝ), ["Keep chest up and back straight"])
      else if 200 < avg_torso_angle then
        (-10, ["Don't lean back - maintain neutral spine"])
      else (0, ["Great posture! 💪"])
    -- 4. knee alignment
    let knee_width := |left_knee.1 - right_knee.1|
    let ankle_width := |left_ankle.1 - right_ankle.1|
    let knees :=
      if knee_width < ankle_width * 0.8 then
        ((-15 : ℝ), ["Keep knees aligned with toes"])
      else if ankle_width * 1.3 < knee_width then
        (-5, ["Knees slightly too wide"])
      else (0, [])
    -- 5. range of motion feedback
    let rom : List String :=
      if core.stage = "up" ∧ 170 < smoothed_angle then
        ["Ready position - start your squat"]
      else if core.stage = "transition" then
        if core.previous_stage = "up" then ["Descending - control the movement"]
        else ["Ascending - drive through heels"]
      else []
    let form_score := 100 + depth.1 + symmetry.1 + posture.1 + knees.1
    let warnings :=
      rep_warnings ++ depth.2 ++ symmetry.2 ++ posture.2 ++ knees.2 ++ rom
    -- clamp and headline (lines 178-189)
    let finished := finalizeScore form_score warnings
    ⟨⟨core, angle_history, min_angle_reached⟩,
      finished.1, finished.2, core.stage, core.counter⟩

/-! ## Backend squat analysis (`src/backend/main.py`) -/

/-- `analyze_squat_form_accurate(keypoints)`, `src/backend/main.py`
lines 632-737, translated statement by statement.  All arithmetic is on
normalized coordinates, so the whole function is rational. -/
def analyze_squat_form_accurate (keypoints : List Landmark) : FormResult :=
  if keypoints.length < 33 then
    ⟨70, ["Incomplete pose detection - ensure full body is visible"], "up", 0⟩
  else
    let kp := fun i => keypoints.getD i default
    let left_shoulder := kp 11
    let right_shoulder := kp 12
    let left_hip := kp 23
    let right_hip := kp 24
    let left_knee := kp 25
    let right_knee := kp 26
    let left_ankle := kp 27
    let right_ankle := kp 28
    let hip_center_y := (left_hip.y + right_hip.y) / 2
    let knee_center_y := (left_knee.y + right_knee.y) / 2
    let hip_knee_distance := hip_center_y - knee_center_y
    -- determine squat stage with accurate thresholds
    let stage : String :=
      if 0.08 < hip_knee_distance then "up"
      else if hip_knee_distance < -0.03 then "down"
      else if hip_knee_distance < 0.02 then "down"
      else "up"
    -- 1. depth analysis
    let depth :=
      if hip_knee_distance < -0.05 then ((5 : ℚ), ["Excellent depth! 🎯"])
      else if hip_knee_distance < -0.02 then (0, ["Good depth! 👍"])
      else if 0.05 < hip_knee_distance then
        (-20, ["Go deeper - hips should go below knees"])
      else (0, [])
    -- 2. knee alignment
    let knee_width := |left_knee.x - right_knee.x|
    let ankle_width := |left_ankle.x - right_ankle.x|
    let knees :=
      if knee_width < ankle_width * 0.8 then
        ((-15 : ℚ), ["Keep knees aligned with toes"])
      else if ankle_width * 1.3 < knee_width then
        (-5, ["Knees slightly too wide"])
      else (0, ["Good knee alignment! 👌"])
    -- 3. back posture
    let shoulder_hip_alignment :=
      |(left_shoulder.x + right_shoulder.x) / 2 - (left_hip.x + right_hip.x) / 2|
    let posture :=
      if 0.1 < shoulder_hip_alignment then
        ((-10 : ℚ), ["Keep chest up and back straight"])
      else (0, ["Good posture! 💪"])
    -- 4. symmetry check
    let symmetry :=
      if 0.05 < |left_hip.y - right_hip.y| ∨ 0.05 < |left_knee.y - right_knee.y| then
        ((-8 : ℚ), ["Keep body balanced and symmetric"])
      else (0, [])
    -- 5. ankle mobility check
    let ankles :=
      if stage = "down" then
        let ankle_forward_lean :=
          (left_ankle.x + right_ankle.x) / 2 - (left_knee.x + right_knee.x) / 2
        if 0.05 < ankle_forward_lean then
          ((-5 : ℚ), ["Try to keep shins more vertical"])
        else (0, [])
      else (0, [])
    -- rep counting (lines 719-722): a per-frame flag, reset to 0 each call
    let currentRep : ℕ :=
      if stage = "down" ∧ hip_knee_distance < -0.02 then 1 else 0
    let formScore :=
      100 + depth.1 + knees.1 + posture.1 + symmetry.1 + ankles.1
    let warnings :=
      depth.2 ++ knees.2 ++ posture.2 ++ symmetry.2 ++ ankles.2
    let finished := finalizeScore formScore warnings
    ⟨finished.1, finished.2, stage, currentRep⟩

/-- The per-frame result assembly of `process_frame_for_pose_analysis`,
`src/backend/main.py` lines 470-515: with no detected pose the fixed
no-detection `PoseData` is returned (lines 501-506); with a pose the
confidence is averaged over the visibilities of hips, knees and ankles and
`analyze_squat_form_accurate` supplies the rest. -/
def processFrameResult (pose_landmarks : Option (List Landmark)) : PoseData :=
  match pose_landmarks with
  | none =>
      ⟨[], 0, 0, 0, "rest", ["No pose detected - ensure full body is visible"]⟩
  | some keypoints =>
      let key_points : List ℕ := [23, 24, 25, 26, 27, 28]
      let key_confidences :=
        (key_points.filter (fun i => i < keypoints.length)).map
          (fun i => (keypoints.getD i default).visibility)
      let confidence :=
        if key_confidences = [] then 0
        else key_confidences.sum / (key_confidences.length : ℚ)
      let r := analyze_squat_form_accurate keypoints
      ⟨keypoints, confidence, r.formScore, r.currentRep, r.stage, r.warnings⟩

/-! ## Seated marching (`src/exercises/seated_marching_tracker26.py`) -/

/-- `self.knee_angle_threshold_raised = 90` — "Angle for raised knee". -/
def knee_angle_threshold_raised {α : Type} [LinearOrderedField α] : α := 90

/-- `self.knee_angle_threshold_lowered = 150` — "Angle for lowered knee". -/
def knee_angle_threshold_lowered {α : Type} [LinearOrderedField α] : α := 150

/-- The mutable state of a `SeatedMarching` session: `self.counter`,
`self.stage`, `self.last_update`, `self.right_knee_raised`,
`self.left_knee_raised`. -/
structure MarchState where
  counter : ℕ
  stage : String
  last_update : ℚ
  right_knee_raised : Bool
  left_knee_raised : Bool
deriving Repr, DecidableEq

/-- The transition-and-count logic of `SeatedMarching.track_marching`
(lines 56-75 of `seated_marching_tracker26.py`), as a function of the computed
knee angles and of `current_time = time.time()`; the landmark extraction,
angle computation and drawing above it feed only these three scalars into the
block.  The fourth branch is the qualifying rep-completing transition: the
left knee lowers past the threshold while raised, and the counter increments
only if more than 1 second has passed since `self.last_update` (the debounce,
"Prevent rapid counting"). -/
def track_marching_core (s : MarchState)
    (right_knee_angle left_knee_angle current_time : ℚ) : MarchState :=
  if right_knee_angle < knee_angle_threshold_raised ∧ s.right_knee_raised = false then
    { s with stage := "Right Knee Raised", right_knee_raised := true }
  else if knee_angle_threshold_lowered < right_knee_angle ∧
      s.right_knee_raised = true ∧ s.left_knee_raised = false then
    { s with stage := "Right Knee Lowered", right_knee_raised := false }
  else if left_knee_angle < knee_angle_threshold_raised ∧
      s.left_knee_raised = false ∧ s.right_knee_raised = false then
    { s with stage := "Left Knee Raised", left_knee_raised := true }
  else if knee_angle_threshold_lowered < left_knee_angle ∧ s.left_knee_raised = true then
    let s1 := { s with stage := "Left Knee Lowered", left_knee_raised := false }
    if 1 < current_time - s.last_update then
      { s1 with counter := s.counter + 1, last_update := current_time }
    else s1
  else if s.right_knee_raised = false ∧ s.left_knee_raised = false then
    { s with stage := "Neutral" }
  else s

/-- The fourth `elif` of `track_marching` is reached with its condition true:
a qualifying left-knee-lowered (rep-completing) transition. -/
def march_qualifies (s : MarchState) (right_knee_angle left_knee_angle : ℚ) : Prop :=
  ¬ (right_knee_angle < knee_angle_threshold_raised ∧ s.right_knee_raised = false) ∧
  ¬ (knee_angle_threshold_lowered < right_knee_angle ∧
      s.right_knee_raised = true ∧ s.left_knee_raised = false) ∧
  ¬ (left_knee_angle < knee_angle_threshold_raised ∧
      s.left_knee_raised = false ∧ s.right_knee_raised = false) ∧
  (knee_angle_threshold_lowered < left_knee_angle ∧ s.left_knee_raised = true)

instance (s : MarchState) (rA lA : ℚ) : Decidable (march_qualifies s rA lA) := by
  unfold march_qualifies; infer_instance

/-! ## Breathing exercise (`src/exercises/breathing_exercise.py`)

A time-driven three-phase cycle: inhale → hold → exhale → inhale, the phase
advancing whenever the time elapsed in the current phase reaches
`phase_duration`, and `cycle_count` incrementing on the exhale → inhale wrap.
The raised-finger count only selects the warning message; it never influences
the phase transition. -/

/-- `self.phase_duration = 4` — "4 seconds per phase". -/
def phase_duration : ℚ := 4

/-- `self.expected_fingers = {'inhale': 1, 'hold': 2, 'exhale': 3}`. -/
def expected_fingers (phase : String) : ℕ :=
  if phase = "inhale" then 1 else if phase = "hold" then 2
  else if phase = "exhale" then 3 else 0

/-- The fixed phase successor of lines 79-87: inhale → hold → exhale → inhale. -/
def next_breathing_phase (phase : String) : String :=
  if phase = "inhale" then "hold"
  else if phase = "hold" then "exhale"
  else if phase = "exhale" then "inhale"
  else phase

/-- The mutable state of a `BreathingExercise` session that
`track_breathing_exercise` reads or writes across calls: `self.cycle_count`,
`self.phase` (initially `None`), `self.phase_start_time`. -/
structure BreathingState where
  cycle_count : ℕ
  phase : Option String
  phase_start_time : ℚ
deriving Repr, DecidableEq

/-- `BreathingExercise.track_breathing_exercise` (lines 34-92 of
`breathing_exercise.py`) restricted to its state logic: the MediaPipe hand
detection and drawing feed only `finger_count` into it, and that value only
selects the warning string.  Returns the new state, the warning
(`None` when the finger count matches the expected one for the current
phase) and the phase progress fraction. -/
def breathing_step (s : BreathingState) (current_time : ℚ) (finger_count : ℕ) :
    BreathingState × Option String × ℚ :=
  -- initialize phase if None
  let phase0 : String := match s.phase with | none => "inhale" | some p => p
  let start0 : ℚ := match s.phase with | none => current_time | some _ => s.phase_start_time
  let warning_message : Option String :=
    if finger_count ≠ expected_fingers phase0 then
      some ("Show " ++ toString (expected_fingers phase0) ++ " finger(s) for "
        ++ phase0 ++ "!")
    else none
  let time_elapsed := current_time - start0
  let time_remaining := max 0 (phase_duration - time_elapsed)
  -- transition to next phase if duration is exceeded
  let stepped : BreathingState :=
    if phase_duration ≤ time_elapsed then
      { cycle_count := s.cycle_count + (if phase0 = "exhale" then 1 else 0),
        phase := some (next_breathing_phase phase0),
        phase_start_time := current_time }
    else
      { s with phase := some phase0, phase_start_time := start0 }
  let progress := 1 - time_remaining / phase_duration
  (stepped, warning_message, progress)

/-! ## Alternate-nostril breathing (`src/exercises/alternate_nostril_breathing.py`) -/

/-- The `cycle_sequence` list of `track_breathing_cycle` (lines 49-52).  Note
"Hold Right" occurs at positions 1 and 7 and "Hold Left" at positions 3
and 5. -/
def cycle_sequence : List String :=
  ["Inhale Right", "Hold Right", "Exhale Left", "Hold Left",
   "Inhale Left", "Hold Left", "Exhale Right", "Hold Right"]

/-- The mutable state of an `AlternateNostrilBreathing` session used by
`track_breathing_cycle`: `self.cycle_counter`, `self.breathing_phase`,
`self.phase_timer`, `self.last_cycle_update`. -/
structure ANBState where
  cycle_counter : ℕ
  breathing_phase : String
  phase_timer : ℚ
  last_cycle_update : ℚ
deriving Repr, DecidableEq

/-- The constructor state (lines 7-11): phase "Inhale Right", both timers set
to the construction time. -/
def anbInit (t0 : ℚ) : ANBState :=
  ⟨0, "Inhale Right", t0, t0⟩

/-- `AlternateNostrilBreathing.track_breathing_cycle` (lines 43-65): when the
elapsed time reaches `phase_duration` the phase becomes
`cycle_sequence[(cycle_sequence.index(phase) + 1) % 8]` — `list.index` returns
the FIRST occurrence of the phase name — the phase timer is reset to the call
time, and the cycle counter increments only when the new index is 0 and more
than 1 second has passed since `self.last_cycle_update`. -/
def track_breathing_cycle (s : ANBState) (current_time : ℚ) : ANBState :=
  let elapsed := current_time - s.phase_timer
  if phase_duration ≤ elapsed then
    let current_index := cycle_sequence.indexOf s.breathing_phase
    let next_index := (current_index + 1) % cycle_sequence.length
    let s1 := { s with
      breathing_phase := cycle_sequence.getD next_index s.breathing_phase,
      phase_timer := current_time }
    if next_index = 0 ∧ 1 < current_time - s.last_cycle_update then
      { s1 with
        cycle_counter := s.cycle_counter + 1
        last_cycle_update := current_time }
    else s1
  else s

/-- Folding a sequence of frame times through `track_breathing_cycle`. -/
def anbRun (s : ANBState) (ts : List ℚ) : ANBState :=
  ts.foldl track_breathing_cycle s

/-! ## Concrete frames used to exercise the backend analysis

Two synthetic 33-landmark frames for `analyze_squat_form_accurate`: one deep
"down" frame (hip centre below knee centre by 0.1 in normalized-`y`) and one
"up" frame (hip centre above knee centre by 0.1). -/

/-- A deep squat frame: hips at `y = 1/2`, knees at `y = 3/5`. -/
def frameDown : List Landmark :=
  (List.range 33).map (fun i =>
    if i = 23 ∨ i = 24 then ⟨1/2, 1/2, 0, 1, ""⟩
    else if i = 25 then ⟨9/20, 3/5, 0, 1, ""⟩
    else if i = 26 then ⟨11/20, 3/5, 0, 1, ""⟩
    else if i = 27 then ⟨9/20, 17/20, 0, 1, ""⟩
    else if i = 28 then ⟨11/20, 17/20, 0, 1, ""⟩
    else ⟨1/2, 3/10, 0, 1, ""⟩)

/-- A standing frame of the same session: hips at `y = 7/10`, knees at
`y = 3/5` (the code's "up" test is `hip_knee_distance > 0.08`). -/
def frameUp : List Landmark :=
  (List.range 33).map (fun i =>
    if i = 23 ∨ i = 24 then ⟨1/2, 7/10, 0, 1, ""⟩
    else if i = 25 then ⟨9/20, 3/5, 0, 1, ""⟩
    else if i = 26 then ⟨11/20, 3/5, 0, 1, ""⟩
    else if i = 27 then ⟨9/20, 17/20, 0, 1, ""⟩
    else if i = 28 then ⟨11/20, 17/20, 0, 1, ""⟩
    else ⟨1/2, 3/10, 0, 1, ""⟩)

/-! # Theorems -/

/-! ## Helper lemmas about the squat stage machine -/

/-- One `squat_step` changes the counter by at most one, and exactly by the
qualifying-transition indicator. -/
theorem squat_step_counter {α : Type} [LinearOrderedField α]
    (s : SquatCore) (v : α) :
    (squat_step s v).1.counter
      = s.counter + (if squat_qualifies s v then 1 else 0) := by
  by_cases hq : squat_qualifies s v
  · obtain ⟨h1, h2, h3⟩ := hq
    simp only [squat_step]
    rw [if_pos h1, if_pos ⟨h2, h3⟩, if_pos ⟨h1, h2, h3⟩]
  · rw [if_neg hq]
    simp only [squat_step, squat_qualifies] at hq ⊢
    split_ifs with h1 h2 <;> simp_all

/-- Each step is monotone in the counter. -/
theorem squat_step_counter_mono {α : Type} [LinearOrderedField α]
    (s : SquatCore) (v : α) : s.counter ≤ (squat_step s v).1.counter := by
  rw [squat_step_counter]; split_ifs <;> omega

/-- The counter is monotone along any run of the squat stage machine. -/
theorem squat_run_counter_mono {α : Type} [LinearOrderedField α]
    (vs : List α) (s : SquatCore) : s.counter ≤ (squat_run s vs).counter := by
  induction vs generalizing s with
  | nil => exact le_rfl
  | cons v vs ih =>
      exact le_trans (squat_step_counter_mono s v) (ih (squat_step s v).1)

/-! ## Helper lemmas about the seated-marching machine -/

/-- A `track_marching` call either leaves the counter and debounce timestamp
untouched, or counts exactly one rep, and then only when more than one second
has passed since the last counted rep; counting stamps `last_update` with the
call time. -/
theorem march_counter_cases (s : MarchState) (rA lA t : ℚ) :
    ((track_marching_core s rA lA t).counter = s.counter ∧
     (track_marching_core s rA lA t).last_update = s.last_update) ∨
    ((track_marching_core s rA lA t).counter = s.counter + 1 ∧
     1 < t - s.last_update ∧
     (track_marching_core s rA lA t).last_update = t) := by
  simp only [track_marching_core]
  split_ifs with h1 h2 h3 h4 h5 h6 <;> simp_all

/-! ## Claim C1 -/

/-- Claim C1, as stated, is false on the code: a session whose current stage
is "up" fed a frame whose smoothed angle 120 lies strictly inside the
hysteresis gap (90, 160) changes stage (to "transition"). -/
theorem c1_claim_counterexample :
    (squat_step (⟨0, "up", "up", false⟩ : SquatCore) (120 : ℚ)).1.stage ≠
      (⟨0, "up", "up", false⟩ : SquatCore).stage := by
  decide

/-- Claim C1 (amended): feeding a frame whose smoothed angle lies strictly
inside the hysteresis gap (above `DEPTH_THRESHOLD`, below `UP_THRESHOLD`)
never drives the stage to "up" or "down" and never changes the rep counter:
the stage always becomes "transition".  In particular a session currently in
stage "transition" never changes stage; a session in "up" or "down" moves to
"transition" on the first in-gap frame (the counterexample to the original
wording). -/
theorem c1_hysteresis_gap_amended {α : Type} [LinearOrderedField α]
    (s : SquatCore) (v : α)
    (h1 : DEPTH_THRESHOLD < v) (h2 : v < UP_THRESHOLD) :
    (squat_step s v).1.stage = "transition" ∧
    (squat_step s v).1.counter = s.counter ∧
    (s.stage = "transition" → (squat_step s v).1.stage = s.stage) := by
  have hup : ¬ (UP_THRESHOLD < v) := not_lt.2 h2.le
  have hdown : ¬ (v < DEPTH_THRESHOLD) := not_lt.2 h1.le
  simp only [squat_step]
  rw [if_neg hup, if_neg hdown]
  exact ⟨rfl, rfl, fun h => h.symm⟩

/-- Witness for C1 (amended) at a concrete in-gap input. -/
theorem c1_hysteresis_gap_amended_witness :
    (squat_step (⟨3, "transition", "up", false⟩ : SquatCore) (100 : ℚ)).1.stage
        = "transition" ∧
    (squat_step (⟨3, "transition", "up", false⟩ : SquatCore) (100 : ℚ)).1.counter
        = 3 ∧
    ((⟨3, "transition", "up", false⟩ : SquatCore).stage = "transition" →
      (squat_step (⟨3, "transition", "up", false⟩ : SquatCore) (100 : ℚ)).1.stage
        = (⟨3, "transition", "up", false⟩ : SquatCore).stage) :=
  c1_hysteresis_gap_amended ⟨3, "transition", "up", false⟩ (100 : ℚ)
    (by decide) (by decide)

/-! ## Claim C2 -/

/-- Claim C2, as stated, is false on the backend code path it names:
`analyze_squat_form_accurate` resets `currentRep` to 0 on every call, so a
session consisting of a deep "down" frame followed by an "up" frame reports
rep counts 1 and then 0 — the reported repetition counter strictly
decreases. -/
theorem c2_claim_counterexample :
    (analyze_squat_form_accurate frameUp).currentRep
      < (analyze_squat_form_accurate frameDown).currentRep := by
  have hd : (analyze_squat_form_accurate frameDown).currentRep = 1 := by
    simp only [frameDown, analyze_squat_form_accurate]
    norm_num [finalizeScore]
  have hu : (analyze_squat_form_accurate frameUp).currentRep = 0 := by
    simp only [frameUp, analyze_squat_form_accurate]
    norm_num [finalizeScore]
  omega

/-- Claim C2 (amended): in the stateful session tracker
(`ImprovedSquatTracker`), the rep counter changes by exactly the
qualifying-transition indicator on every frame — `+1` on a qualifying
transition (smoothed angle above the up threshold while a rep is in progress
and the previous stage was "down"), unchanged otherwise — hence it is
monotonically non-decreasing over every frame sequence, and two consecutive
frames can never both increment it even if both exceed the up threshold.  The
backend `analyze_squat_form_accurate` named by the claim instead returns a
stateless per-frame flag that can decrease (see the counterexample). -/
theorem c2_rep_counter_amended {α : Type} [LinearOrderedField α]
    (s : SquatCore) (v w : α) (vs : List α) :
    (squat_step s v).1.counter
        = s.counter + (if squat_qualifies s v then 1 else 0) ∧
    s.counter ≤ (squat_run s vs).counter ∧
    (squat_qualifies s v → ¬ squat_qualifies (squat_step s v).1 w) := by
  refine ⟨squat_step_counter s v, squat_run_counter_mono vs s, fun hq hq2 => ?_⟩
  obtain ⟨h1, h2, h3⟩ := hq
  have hstage : (squat_step s v).1.stage = "up" := by
    simp only [squat_step]
    rw [if_pos h1, if_pos ⟨h2, h3⟩]
  obtain ⟨-, -, hst⟩ := hq2
  rw [hstage] at hst
  exact absurd hst (by simp)

/-- Witness for C2 (amended) at a concrete qualifying transition. -/
theorem c2_rep_counter_amended_witness :
    ((squat_step (⟨2, "down", "transition", true⟩ : SquatCore) (170 : ℚ)).1.counter
        = 2 + (if squat_qualifies (⟨2, "down", "transition", true⟩ : SquatCore)
            (170 : ℚ) then 1 else 0)) ∧
    (2 ≤ (squat_run (⟨2, "down", "transition", true⟩ : SquatCore)
        ([170, 165] : List ℚ)).counter) ∧
    (squat_qualifies (⟨2, "down", "transition", true⟩ : SquatCore) (170 : ℚ) →
      ¬ squat_qualifies
        (squat_step (⟨2, "down", "transition", true⟩ : SquatCore) (170 : ℚ)).1
        (165 : ℚ)) :=
  c2_rep_counter_amended ⟨2, "down", "transition", true⟩ (170 : ℚ) (165 : ℚ)
    ([170, 165] : List ℚ)

/-! ## Claim C3 -/

/-- Claim C3: debounce in `SeatedMarching.track_marching`.  (i) A qualifying
rep-completing transition (the left-knee-lowered branch) whose call time is
within one second of the last counted rep leaves the counter and the debounce
timestamp unchanged — the increment is rejected.  (ii) Whenever a call does
change the counter, it increments it by exactly 1, more than one second after
the last counted rep, and stamps the call time.  (iii) Consequently, of two
counter-incrementing transitions less than the debounce interval apart, only
the first is counted, no matter what happens in between at the second call. -/
theorem c3_debounce (s : MarchState) (rA lA t rA2 lA2 t2 : ℚ) :
    (march_qualifies s rA lA → t - s.last_update ≤ 1 →
      (track_marching_core s rA lA t).counter = s.counter ∧
      (track_marching_core s rA lA t).last_update = s.last_update) ∧
    ((track_marching_core s rA lA t).counter ≠ s.counter →
      (track_marching_core s rA lA t).counter = s.counter + 1 ∧
      1 < t - s.last_update ∧
      (track_marching_core s rA lA t).last_update = t) ∧
    ((track_marching_core s rA lA t).counter = s.counter + 1 → t2 - t ≤ 1 →
      (track_marching_core (track_marching_core s rA lA t) rA2 lA2 t2).counter
        = (track_marching_core s rA lA t).counter) := by
  refine ⟨fun hq ht => ?_, fun hne => ?_, fun hinc ht2 => ?_⟩
  · rcases march_counter_cases s rA lA t with h | h
    · exact ⟨h.1, h.2⟩
    · exact absurd ht (not_le.2 (by linarith [h.2.1]))
  · rcases march_counter_cases s rA lA t with h | h
    · exact absurd h.1 hne
    · exact h
  · have hlu : (track_marching_core s rA lA t).last_update = t := by
      rcases march_counter_cases s rA lA t with h | h
      · omega
      · exact h.2.2
    rcases march_counter_cases (track_marching_core s rA lA t) rA2 lA2 t2 with h | h
    · exact h.1
    · rw [hlu] at h
      exact absurd ht2 (not_le.2 (by linarith [h.2.1]))

/-- Witness for C3 at a concrete rejected transition: left knee raised, left
knee angle 160 crosses the lowered threshold half a second after the last
counted rep — the rep is not counted. -/
theorem c3_debounce_witness :
    (march_qualifies ⟨4, "Left Knee Raised", 0, false, true⟩ 170 160 →
      (1 / 2 : ℚ) - (0 : ℚ) ≤ 1 →
      (track_marching_core ⟨4, "Left Knee Raised", 0, false, true⟩ 170 160 (1/2)).counter = 4 ∧
      (track_marching_core ⟨4, "Left Knee Raised", 0, false, true⟩ 170 160 (1/2)).last_update = 0) ∧
    march_qualifies ⟨4, "Left Knee Raised", 0, false, true⟩ 170 160 ∧
    ((1 / 2 : ℚ) - (0 : ℚ) ≤ 1) :=
  ⟨fun hq ht => ((c3_debounce ⟨4, "Left Knee Raised", 0, false, true⟩
      170 160 (1/2) 0 0 0).1 hq ht),
   by decide, by norm_num⟩

/-! ## Claim C5 -/

/-- Claim C5 names intended behaviour the code does not implement: on a
degenerate triple (here `a = b = (0,0)`, so the vector `b→a` has zero
length) the float computation divides `0.0` by `0.0`, which numpy answers
with NaN and a `RuntimeWarning` rather than an exception, so the
`except: return 180.0` branch of `ImprovedSquatTracker.calculate_angle`
never runs and `calculate_angle` of `seated_marching_tracker26.py` has no
handler at all: the caller receives NaN (modelled as `none`), not the 180°
sentinel. -/
theorem c5_degenerate_angle_nan :
    calculate_angle_ieee (0, 0) (0, 0) (1, 0) = none ∧
    calculate_angle_ieee (0, 0) (0, 0) (1, 0) ≠ some 180 := by
  have hz : normP (vsub2 ((0 : ℝ), (0 : ℝ)) (0, 0)) *
      normP (vsub2 ((1 : ℝ), (0 : ℝ)) (0, 0)) = 0 := by
    have h1 : vsub2 ((0 : ℝ), (0 : ℝ)) (0, 0) = (0, 0) := by
      simp [vsub2]
    have h2 : normP ((0 : ℝ), (0 : ℝ)) = 0 := by
      simp [normP, dotP]
    rw [h1, h2, zero_mul]
  have h : calculate_angle_ieee (0, 0) (0, 0) (1, 0) = none := by
    simp only [calculate_angle_ieee]
    rw [if_pos hz]
  refine ⟨h, ?_⟩
  rw [h]
  simp

/-! ## Helper lemmas about the alternate-nostril phase machine -/

/-- Because "Hold Right" and "Hold Left" each occur twice in
`cycle_sequence`, `list.index` (first occurrence) never evaluates to the last
position 7: for every member of the sequence the first occurrence is at
index ≤ 6, so `next_index = (index + 1) % 8` is never 0. -/
theorem cycle_sequence_indexOf_lt :
    ∀ p ∈ cycle_sequence, cycle_sequence.indexOf p < 7 := by decide

/-- One `track_breathing_cycle` call keeps the phase inside `cycle_sequence`
and can never increment the cycle counter while the phase is a member of the
sequence (the wrap to index 0 required by the increment is unreachable). -/
theorem anb_step_preserves (s : ANBState) (t : ℚ)
    (hp : s.breathing_phase ∈ cycle_sequence) :
    (track_breathing_cycle s t).breathing_phase ∈ cycle_sequence ∧
    (track_breathing_cycle s t).cycle_counter = s.cycle_counter := by
  have hidx : cycle_sequence.indexOf s.breathing_phase < 7 :=
    cycle_sequence_indexOf_lt _ hp
  have hlen : cycle_sequence.length = 8 := by decide
  have hmod : (cycle_sequence.indexOf s.breathing_phase + 1) %
      cycle_sequence.length = cycle_sequence.indexOf s.breathing_phase + 1 := by
    rw [hlen]; exact Nat.mod_eq_of_lt (by omega)
  simp only [track_breathing_cycle]
  split_ifs with h1 h2
  · exfalso
    rw [hmod] at h2
    exact absurd h2.1 (by omega)
  · refine ⟨?_, rfl⟩
    have hlt : (cycle_sequence.indexOf s.breathing_phase + 1) %
        cycle_sequence.length < cycle_sequence.length :=
      Nat.mod_lt _ (by rw [hlen]; omega)
    rw [List.getD_eq_getElem _ _ hlt]
    exact List.getElem_mem _
  · exact ⟨hp, rfl⟩

/-- Along any run of frame times, from a phase inside the sequence, the
cycle counter never changes and the phase stays inside the sequence. -/
theorem anb_run_counter (ts : List ℚ) (s : ANBState)
    (hp : s.breathing_phase ∈ cycle_sequence) :
    (anbRun s ts).cycle_counter = s.cycle_counter ∧
    (anbRun s ts).breathing_phase ∈ cycle_sequence := by
  induction ts generalizing s with
  | nil => exact ⟨rfl, hp⟩
  | cons t ts ih =>
      have h := anb_step_preserves s t hp
      have h2 := ih (track_breathing_cycle s t) h.1
      exact ⟨h2.1.trans h.2, h2.2⟩

/-! ## Claim C9 -/

/-- Claim C9 states the intended design (the code's own comment reads
"Increment cycle counter after completing a full cycle (8 phases)"), but the
code cannot realize it: `cycle_sequence.index` returns the FIRST occurrence
of the current phase name, and "Hold Left"/"Hold Right" occur twice, so from
the initial state the machine loops among the first five phases, never
reaches index 7, never wraps to index 0, and the cycle counter stays 0
forever (first conjunct, for every frame-time sequence).  Concretely, six
well-spaced advances from the start leave the machine in "Inhale Left" where
the fixed eight-phase sequence prescribes "Exhale Right" (second
conjunct). -/
theorem c9_cycle_counter_never_increments :
    (∀ (t0 : ℚ) (ts : List ℚ), (anbRun (anbInit t0) ts).cycle_counter = 0) ∧
    (anbRun (anbInit 0) [4, 8, 12, 16, 20, 24]).breathing_phase
      = "Inhale Left" := by
  constructor
  · intro t0 ts
    exact (anb_run_counter ts (anbInit t0)
      (by simp [anbInit, cycle_sequence])).1
  · have e1 : track_breathing_cycle ⟨0, "Inhale Right", 0, 0⟩ 4
        = ⟨0, "Hold Right", 4, 0⟩ := by
      rw [track_breathing_cycle, (by decide : cycle_sequence.indexOf "Inhale Right" = 0)]
      norm_num [cycle_sequence, phase_duration]
    have e2 : track_breathing_cycle ⟨0, "Hold Right", 4, 0⟩ 8
        = ⟨0, "Exhale Left", 8, 0⟩ := by
      rw [track_breathing_cycle, (by decide : cycle_sequence.indexOf "Hold Right" = 1)]
      norm_num [cycle_sequence, phase_duration]
    have e3 : track_breathing_cycle ⟨0, "Exhale Left", 8, 0⟩ 12
        = ⟨0, "Hold Left", 12, 0⟩ := by
      rw [track_breathing_cycle, (by decide : cycle_sequence.indexOf "Exhale Left" = 2)]
      norm_num [cycle_sequence, phase_duration]
    have e4 : track_breathing_cycle ⟨0, "Hold Left", 12, 0⟩ 16
        = ⟨0, "Inhale Left", 16, 0⟩ := by
      rw [track_breathing_cycle, (by decide : cycle_sequence.indexOf "Hold Left" = 3)]
      norm_num [cycle_sequence, phase_duration]
    have e5 : track_breathing_cycle ⟨0, "Inhale Left", 16, 0⟩ 20
        = ⟨0, "Hold Left", 20, 0⟩ := by
      rw [track_breathing_cycle, (by decide : cycle_sequence.indexOf "Inhale Left" = 4)]
      norm_num [cycle_sequence, phase_duration]
    have e6 : track_breathing_cycle ⟨0, "Hold Left", 20, 0⟩ 24
        = ⟨0, "Inhale Left", 24, 0⟩ := by
      rw [track_breathing_cycle, (by decide : cycle_sequence.indexOf "Hold Left" = 3)]
      norm_num [cycle_sequence, phase_duration]
    show (anbRun ⟨0, "Inhale Right", 0, 0⟩ [4, 8, 12, 16, 20, 24]).breathing_phase
      = "Inhale Left"
    simp only [anbRun, List.foldl]
    rw [e1, e2, e3, e4, e5, e6]

/-! ## Claim C10 -/

/-- Claim C10: both time-driven breathing machines advance at most one phase
per ingested frame and increment their counter at most once per call; on an
advance the phase timer is reset to the current call time (not to
`start + phase_duration`), so even when two full phase durations have
elapsed since the previous frame only one phase is consumed and the excess
elapsed time is discarded. -/
theorem c10_at_most_one_phase (s : BreathingState) (t : ℚ) (f : ℕ) (p : String)
    (s2 : ANBState) (t2 : ℚ) :
    ((breathing_step s t f).1.cycle_count ≤ s.cycle_count + 1) ∧
    (s.phase = some p →
      ((breathing_step s t f).1.phase = some p ∨
       (breathing_step s t f).1.phase = some (next_breathing_phase p))) ∧
    (s.phase = some p → 2 * phase_duration ≤ t - s.phase_start_time →
      (breathing_step s t f).1.phase = some (next_breathing_phase p) ∧
      (breathing_step s t f).1.phase_start_time = t ∧
      (breathing_step s t f).1.cycle_count
        = s.cycle_count + (if p = "exhale" then 1 else 0)) ∧
    ((track_breathing_cycle s2 t2).cycle_counter ≤ s2.cycle_counter + 1) ∧
    (2 * phase_duration ≤ t2 - s2.phase_timer →
      (track_breathing_cycle s2 t2).phase_timer = t2 ∧
      (track_breathing_cycle s2 t2).breathing_phase
        = cycle_sequence.getD
            ((cycle_sequence.indexOf s2.breathing_phase + 1) % cycle_sequence.length)
            s2.breathing_phase) := by
  refine ⟨?_, fun hp => ?_, fun hp h8 => ?_, ?_, fun h8 => ?_⟩
  · cases hsp : s.phase <;>
      simp only [breathing_step, hsp] <;> split_ifs <;> simp
  · simp only [breathing_step, hp]
    split_ifs <;> simp
  · have hdur : phase_duration ≤ t - s.phase_start_time := by
      have : (0 : ℚ) ≤ phase_duration := by norm_num [phase_duration]
      linarith
    simp only [breathing_step, hp]
    rw [if_pos hdur]
    refine ⟨rfl, rfl, ?_⟩
    split_ifs <;> rfl
  · simp only [track_breathing_cycle]
    split_ifs <;> simp
  · have hdur : phase_duration ≤ t2 - s2.phase_timer := by
      have : (0 : ℚ) ≤ phase_duration := by norm_num [phase_duration]
      linarith
    simp only [track_breathing_cycle]
    rw [if_pos hdur]
    split_ifs <;> exact ⟨rfl, rfl⟩

/-- Witness for C10: from phase "exhale" entered at time 0, a single frame at
time 9 (more than two phase durations later) advances exactly one phase,
resets the timer to 9 and adds exactly one completed cycle; the
alternate-nostril machine likewise stamps its timer with the call time. -/
theorem c10_at_most_one_phase_witness :
    (breathing_step ⟨0, some "exhale", 0⟩ 9 3).1.phase
        = some (next_breathing_phase "exhale") ∧
    (breathing_step ⟨0, some "exhale", 0⟩ 9 3).1.phase_start_time = 9 ∧
    (breathing_step ⟨0, some "exhale", 0⟩ 9 3).1.cycle_count
        = 0 + (if "exhale" = "exhale" then 1 else 0) ∧
    (track_breathing_cycle ⟨0, "Inhale Right", 0, 0⟩ 9).phase_timer = 9 := by
  have h := c10_at_most_one_phase ⟨0, some "exhale", 0⟩ 9 3 "exhale"
    ⟨0, "Inhale Right", 0, 0⟩ 9
  have hb := h.2.2.1 rfl (by norm_num [phase_duration])
  exact ⟨hb.1, hb.2.1, hb.2.2, (h.2.2.2.2 (by norm_num [phase_duration])).1⟩

/-! ## Claim C6 -/

/-- The dot product is symmetric. -/
theorem dotP_comm (u v : ℝ × ℝ) : dotP u v = dotP v u := by
  simp only [dotP]; ring

/-- Claim C6: for every triple with vertex `b` and both vectors
non-degenerate, the computed angle is symmetric in its outer points and lies
in `[0, 180]` degrees (the arccosine of the clipped cosine lies in `[0, π]`
and the conversion to degrees multiplies by `180/π`). -/
theorem c6_angle_symmetry_range (a b c : ℝ × ℝ)
    (_h1 : vsub2 a b ≠ (0, 0)) (_h2 : vsub2 c b ≠ (0, 0)) :
    calculate_angle a b c = calculate_angle c b a ∧
    0 ≤ calculate_angle a b c ∧ calculate_angle a b c ≤ 180 := by
  refine ⟨?_, ?_, ?_⟩
  · simp only [calculate_angle]
    rw [dotP_comm (vsub2 c b) (vsub2 a b),
      mul_comm (normP (vsub2 c b)) (normP (vsub2 a b))]
  · simp only [calculate_angle]
    exact mul_nonneg (Real.arccos_nonneg _) (by positivity)
  · simp only [calculate_angle]
    calc Real.arccos (max (-1) (min 1
          (dotP (vsub2 a b) (vsub2 c b) / (normP (vsub2 a b) * normP (vsub2 c b)))))
          * (180 / Real.pi)
        ≤ Real.pi * (180 / Real.pi) :=
          mul_le_mul_of_nonneg_right (Real.arccos_le_pi _) (by positivity)
      _ = 180 := by
          field_simp

/-- Witness for C6 at the right-angle triple `a = (1,0)`, `b = (0,0)`,
`c = (0,1)`. -/
theorem c6_angle_symmetry_range_witness :
    calculate_angle (1, 0) (0, 0) (0, 1) = calculate_angle (0, 1) (0, 0) (1, 0) ∧
    0 ≤ calculate_angle (1, 0) (0, 0) (0, 1) ∧
    calculate_angle (1, 0) (0, 0) (0, 1) ≤ 180 :=
  c6_angle_symmetry_range (1, 0) (0, 0) (0, 1)
    (by norm_num [vsub2, Prod.ext_iff]) (by norm_num [vsub2, Prod.ext_iff])

/-! ## Helper lemmas about the smoother -/

/-- Unrolling the last sample of a smoother run. -/
theorem smoothRun_concat {α : Type} [LinearOrderedField α] (xs : List α) (v : α) :
    smoothRun (xs ++ [v]) = smooth_angle (smoothRun xs).1 v := by
  simp [smoothRun, List.foldl_append]

/-- The tail of an appended singleton, for a nonempty prefix. -/
theorem tail_append_single {β : Type} (l : List β) (v : β) (h : l ≠ []) :
    (l ++ [v]).tail = l.tail ++ [v] := by
  cases l with
  | nil => exact absurd rfl h
  | cons a l => rfl

/-- The smoother buffer after ingesting a whole stream is exactly the most
recent at-most-`history_size` samples of the stream. -/
theorem smoothRun_window {α : Type} [LinearOrderedField α] (xs : List α) :
    (smoothRun xs).1 = xs.drop (xs.length - history_size) := by
  induction xs using List.reverseRecOn with
  | nil => simp [smoothRun]
  | append_singleton ys v ih =>
      rw [smoothRun_concat, ih]
      rcases lt_or_ge ys.length history_size with hlt | hge
      · have hd : ys.length - history_size = 0 := by omega
        have hd2 : (ys ++ [v]).length - history_size = 0 := by
          simp only [List.length_append, List.length_singleton]
          omega
        rw [hd, hd2, List.drop_zero, List.drop_zero]
        simp only [smooth_angle]
        rw [if_neg (by simp only [List.length_append, List.length_singleton]; omega)]
      · have h5 : history_size = 5 := rfl
        have hlen : (ys.drop (ys.length - history_size)).length = history_size := by
          rw [List.length_drop]; omega
        simp only [smooth_angle]
        rw [if_pos (by
          simp only [List.length_append, List.length_singleton, hlen]; omega)]
        rw [tail_append_single _ _ (List.ne_nil_of_length_pos (by
          rw [hlen]; norm_num [history_size]))]
        rw [List.tail_drop]
        rw [List.drop_append_of_le_length (by
          simp only [List.length_append, List.length_singleton]; omega)]
        have hidx : ys.length - history_size + 1
            = (ys ++ [v]).length - history_size := by
          simp only [List.length_append, List.length_singleton]; omega
        rw [hidx]

/-- The mean of a list is at most any upper bound of its members. -/
theorem list_mean_le {α : Type} [LinearOrderedField α] (l : List α) (B : α)
    (hl : l ≠ []) (hb : ∀ x ∈ l, x ≤ B) : l.sum / (l.length : α) ≤ B := by
  have hpos : (0 : α) < (l.length : α) := by
    exact_mod_cast List.length_pos.2 hl
  rw [div_le_iff₀ hpos]
  have h := List.sum_le_card_nsmul l B hb
  rw [nsmul_eq_mul] at h
  calc l.sum ≤ (l.length : α) * B := h
    _ = B * (l.length : α) := mul_comm _ _

/-- The mean of a list is at least any lower bound of its members. -/
theorem le_list_mean {α : Type} [LinearOrderedField α] (l : List α) (B : α)
    (hl : l ≠ []) (hb : ∀ x ∈ l, B ≤ x) : B ≤ l.sum / (l.length : α) := by
  have hpos : (0 : α) < (l.length : α) := by
    exact_mod_cast List.length_pos.2 hl
  rw [le_div_iff₀ hpos]
  have h := List.card_nsmul_le_sum l B hb
  rw [nsmul_eq_mul] at h
  calc B * (l.length : α) = (l.length : α) * B := mul_comm _ _
    _ ≤ l.sum := h

/-- The buffer after a nonempty stream is nonempty. -/
theorem smoothRun_window_ne_nil {α : Type} [LinearOrderedField α]
    (xs : List α) (hxs : xs ≠ []) : (smoothRun xs).1 ≠ [] := by
  rw [smoothRun_window]
  apply List.ne_nil_of_length_pos
  rw [List.length_drop]
  have h1 := List.length_pos.2 hxs
  have h5 : history_size = 5 := rfl
  omega

/-- The smoothed value returned with a nonempty stream is the mean of the
buffer. -/
theorem smoothRun_mean {α : Type} [LinearOrderedField α]
    (xs : List α) (hxs : xs ≠ []) :
    (smoothRun xs).2 = (smoothRun xs).1.sum / ((smoothRun xs).1.length : α) := by
  rcases List.eq_nil_or_concat xs with rfl | ⟨ys, v, rfl⟩
  · exact absurd rfl hxs
  · rw [List.concat_eq_append, smoothRun_concat]
    rfl

/-! ## Claim C7 -/

/-- Claim C7: the smoother returns the raw value for the first sample; after
any stream the buffer holds exactly the most recent at-most-`history_size`
samples and the output is their arithmetic mean; for a constant stream of
value `V` the output is `V`; and the output never exceeds any upper bound of
the buffered window nor falls below any lower bound (in particular it stays
between the window's minimum and maximum). -/
theorem c7_smoother_spec (xs : List ℚ) (v V B : ℚ) (hxs : xs ≠ []) :
    smooth_angle ([] : List ℚ) v = ([v], v) ∧
    (smoothRun xs).1 = xs.drop (xs.length - history_size) ∧
    (smoothRun xs).2 = (smoothRun xs).1.sum / ((smoothRun xs).1.length : ℚ) ∧
    (xs = List.replicate xs.length V → (smoothRun xs).2 = V) ∧
    ((∀ x ∈ (smoothRun xs).1, x ≤ B) → (smoothRun xs).2 ≤ B) ∧
    ((∀ x ∈ (smoothRun xs).1, B ≤ x) → B ≤ (smoothRun xs).2) := by
  have hwin := smoothRun_window (α := ℚ) xs
  have hne := smoothRun_window_ne_nil xs hxs
  have hmean := smoothRun_mean xs hxs
  refine ⟨?_, hwin, hmean, ?_, ?_, ?_⟩
  · simp [smooth_angle, history_size]
  · intro hrep
    have hrepl : (smoothRun xs).1
        = List.replicate (xs.length - (xs.length - history_size)) V := by
      rw [hwin]
      conv_lhs => rw [hrep]
      simp [List.drop_replicate]
    have hk : xs.length - (xs.length - history_size) ≠ 0 := by
      have hp := List.length_pos.2 hxs
      have h5 : history_size = 5 := rfl
      omega
    rw [hmean, hrepl, List.sum_replicate, List.length_replicate, nsmul_eq_mul]
    exact mul_div_cancel_left₀ V (by exact_mod_cast hk)
  · intro hB
    rw [hmean]
    exact list_mean_le _ B hne hB
  · intro hB
    rw [hmean]
    exact le_list_mean _ B hne hB

/-- Witness for C7: seven constant samples of value 5 leave the output
at 5, and a first sample of 3 is returned raw. -/
theorem c7_smoother_spec_witness :
    smooth_angle ([] : List ℚ) 3 = ([3], 3) ∧
    (smoothRun ([5, 5, 5, 5, 5, 5, 5] : List ℚ)).2 = 5 := by
  have h := c7_smoother_spec ([5, 5, 5, 5, 5, 5, 5] : List ℚ) 3 5 5 (by decide)
  exact ⟨h.1, h.2.2.2.1 rfl⟩

/-! ## Claim C4 -/

/-- Claim C4: a frame with fewer than the 33 required landmarks is a normal
input, not an error.  The tracker returns its fixed no-detection result —
form score 0, the single "ensure full body is visible" warning, its
configured no-detection stage "up", reported rep count 0 — without touching
any session state (so the session's rep counter is unchanged); the backend
no-pose branch returns stage "rest", confidence 0, `currentRep` 0 and the
same single warning. -/
theorem c4_no_detection (s : SquatSession) (landmarks : List Landmark)
    (frame_shape : ℚ × ℚ) (h : landmarks.length < 33) :
    analyze_squat_form s landmarks frame_shape
        = ⟨s, 0, ["No pose detected - ensure full body is visible"], "up", 0⟩ ∧
    (processFrameResult none).stage = "rest" ∧
    (processFrameResult none).confidence = 0 ∧
    (processFrameResult none).currentRep = 0 ∧
    (processFrameResult none).warnings
        = ["No pose detected - ensure full body is visible"] := by
  refine ⟨?_, rfl, rfl, rfl, rfl⟩
  simp only [analyze_squat_form]
  rw [if_pos h]

/-- Witness for C4: an empty landmark list against a mid-session state with
7 counted reps leaves the state (hence the rep counter) untouched. -/
theorem c4_no_detection_witness :
    analyze_squat_form ⟨⟨7, "down", "transition", true⟩, [100], 95⟩ [] (480, 640)
        = ⟨⟨⟨7, "down", "transition", true⟩, [100], 95⟩, 0,
            ["No pose detected - ensure full body is visible"], "up", 0⟩ ∧
    (processFrameResult none).stage = "rest" ∧
    (processFrameResult none).confidence = 0 ∧
    (processFrameResult none).currentRep = 0 ∧
    (processFrameResult none).warnings
        = ["No pose detected - ensure full body is visible"] :=
  c4_no_detection ⟨⟨7, "down", "transition", true⟩, [100], 95⟩ [] (480, 640)
    (by decide)

/-! ## Helper lemmas about the clamp-and-band epilogue -/

/-- The clamped score always lies in `[0, 100]`. -/
theorem finalizeScore_bounds {α : Type} [LinearOrderedField α]
    (raw : α) (w : List String) :
    0 ≤ (finalizeScore raw w).1 ∧ (finalizeScore raw w).1 ≤ 100 := by
  simp only [finalizeScore]
  split_ifs <;>
    exact ⟨le_max_left 0 _, max_le (by norm_num) (min_le_left _ _)⟩

/-- The headline prepended by the epilogue matches the score bands: a final
score of at least 90 yields the "Perfect form" headline, and a final score
below 70 yields the "Focus on form improvements" headline. -/
theorem finalizeScore_head {α : Type} [LinearOrderedField α]
    (raw : α) (w : List String) :
    (90 ≤ (finalizeScore raw w).1 →
      (finalizeScore raw w).2.head? = some "Perfect form! 🔥") ∧
    ((finalizeScore raw w).1 < 70 →
      (finalizeScore raw w).2.head? = some "Focus on form improvements") := by
  simp only [finalizeScore]
  split_ifs with h1 h2 h3
  · exact ⟨fun _ => rfl, fun h => absurd h (not_lt.2 (by linarith))⟩
  · exact ⟨fun h => absurd h h1, fun h => absurd h (not_lt.2 (by linarith))⟩
  · exact ⟨fun h => absurd h h1, fun h => absurd h (not_lt.2 h3)⟩
  · exact ⟨fun h => absurd h h1, fun _ => rfl⟩

/-! ## Claim C8 -/

/-- Claim C8: both analysis routines start the running score at the fixed
baseline 100, add the rule deltas, and clamp the result into `[0, 100]`
before returning — the returned score is in bounds for every input frame —
and on every analysed frame (33 or more landmarks) the headline message
prepended to the warning list obeys the documented bands: a final score of
at least 90 yields the "Perfect form" family message. -/
theorem c8_form_score_bands (keypoints : List Landmark) (s : SquatSession)
    (landmarks : List Landmark) (frame_shape : ℚ × ℚ) :
    (0 ≤ (analyze_squat_form_accurate keypoints).formScore ∧
     (analyze_squat_form_accurate keypoints).formScore ≤ 100) ∧
    (33 ≤ keypoints.length →
      90 ≤ (analyze_squat_form_accurate keypoints).formScore →
      (analyze_squat_form_accurate keypoints).warnings.head?
          = some "Perfect form! 🔥") ∧
    (0 ≤ (analyze_squat_form s landmarks frame_shape).form_score ∧
     (analyze_squat_form s landmarks frame_shape).form_score ≤ 100) ∧
    (33 ≤ landmarks.length →
      90 ≤ (analyze_squat_form s landmarks frame_shape).form_score →
      (analyze_squat_form s landmarks frame_shape).warnings.head?
          = some "Perfect form! 🔥") := by
  refine ⟨?_, fun h33 h90 => ?_, ?_, fun h33 h90 => ?_⟩
  · by_cases hk : keypoints.length < 33
    · simp only [analyze_squat_form_accurate]
      rw [if_pos hk]
      norm_num
    · simp only [analyze_squat_form_accurate]
      rw [if_neg hk]
      exact finalizeScore_bounds _ _
  · have hk : ¬ keypoints.length < 33 := by omega
    simp only [analyze_squat_form_accurate] at h90 ⊢
    rw [if_neg hk] at h90 ⊢
    exact (finalizeScore_head _ _).1 h90
  · by_cases hk : landmarks.length < 33
    · simp only [analyze_squat_form]
      rw [if_pos hk]
      norm_num
    · simp only [analyze_squat_form]
      rw [if_neg hk]
      exact finalizeScore_bounds _ _
  · have hk : ¬ landmarks.length < 33 := by omega
    simp only [analyze_squat_form] at h90 ⊢
    rw [if_neg hk] at h90 ⊢
    exact (finalizeScore_head _ _).1 h90

/-- Witness for C8: the deep concrete frame earns the depth bonus, hits the
clamp (raw 105 → 100) and receives the "Perfect form" headline; the empty
frame exercises the tracker bound. -/
theorem c8_form_score_bands_witness :
    (0 ≤ (analyze_squat_form_accurate frameDown).formScore ∧
     (analyze_squat_form_accurate frameDown).formScore ≤ 100) ∧
    (analyze_squat_form_accurate frameDown).warnings.head?
        = some "Perfect form! 🔥" ∧
    (0 ≤ (analyze_squat_form ⟨⟨0, "up", "up", false⟩, [], 180⟩ [] (480, 640)).form_score ∧
     (analyze_squat_form ⟨⟨0, "up", "up", false⟩, [], 180⟩ [] (480, 640)).form_score ≤ 100) := by
  have h := c8_form_score_bands frameDown ⟨⟨0, "up", "up", false⟩, [], 180⟩ []
    (480, 640)
  have hs : (analyze_squat_form_accurate frameDown).formScore = 100 := by
    simp only [frameDown, analyze_squat_form_accurate]
    norm_num [finalizeScore]
  refine ⟨h.1, h.2.1 (by decide) ?_, h.2.2.1⟩
  rw [hs]
  norm_num
